import Mathlib

/-!
Verification development for the LCOE/LCOS calculator (src/app.py).

The source is a Python script with three computation tracks sharing one
loop shape: `render_pv_ess_lcoe` (PV + storage LCOE), `render_gas_lcoe`
(gas LCOE) and `render_lcos` (storage LCOS).  Each track builds a
dictionary of twenty parallel time-series columns, accumulates three
scalars (`cum_denom`, `cum_num_pre`, `cum_num_after`) over years
`1..period`, and derives `lcoe_pre`, `lcoe_after` and `lcoe_ppa`.

Numbers are modelled by `ℚ`.  Python raises `ZeroDivisionError` at the
two division sites whose divisor can be zero (`total_inv / depr_years`
before the loop, and `1 / (1+wacc)**y` inside it); those are modelled by
`Option`, with `none` standing for the raised exception.
-/

/-- Python division: dividing by zero raises (modelled as `none`). -/
def pyDiv (a b : ℚ) : Option ℚ := if b = 0 then none else some (a / b)

/-- The inputs that the three loops actually consume, in generic form.
`gen`, `fuel`, `rep` are the per-year generation, fuel/charging cost and
replacement cost; each track fills them with its own formulas below. -/
structure EngineCfg where
  total_inv : ℚ
  wacc : ℚ
  tax_rate : ℚ
  depr_years : ℤ
  period : ℕ
  opex : ℚ
  salvage_val : ℚ
  gen : ℕ → ℚ
  fuel : ℕ → ℚ
  rep : ℕ → ℚ

/-- The twenty time-series columns of `ts` (in source order) plus the three
running accumulator variables of the loop. -/
structure TSState where
  year : List ℚ
  generation : List ℚ
  discountFactor : List ℚ
  discountedGen : List ℚ
  cumDiscountedGen : List ℚ
  capex : List ℚ
  opexPre : List ℚ
  fuelPre : List ℚ
  replacement : List ℚ
  salvagePre : List ℚ
  netPre : List ℚ
  depreciation : List ℚ
  taxShield : List ℚ
  opexTaxBenefit : List ℚ
  salvageAfter : List ℚ
  netAfter : List ℚ
  pvAfter : List ℚ
  cumPVAfter : List ℚ
  pvPre : List ℚ
  cumPVPre : List ℚ
  cumDenom : ℚ
  cumNumPre : ℚ
  cumNumAfter : ℚ

/-- Row 0: every column starts as `[0]` and the construction-year cells are
then overwritten, exactly as in the source (`ts[k].append(0)` followed by
the `ts[...][0] = ...` assignments). -/
def initState (cfg : EngineCfg) : TSState :=
  { year := [0]
  , generation := [0]
  , discountFactor := [1]
  , discountedGen := [0]
  , cumDiscountedGen := [0]
  , capex := [cfg.total_inv]
  , opexPre := [0]
  , fuelPre := [0]
  , replacement := [0]
  , salvagePre := [0]
  , netPre := [cfg.total_inv]
  , depreciation := [0]
  , taxShield := [0]
  , opexTaxBenefit := [0]
  , salvageAfter := [0]
  , netAfter := [cfg.total_inv]
  , pvAfter := [cfg.total_inv]
  , cumPVAfter := [cfg.total_inv]
  , pvPre := [cfg.total_inv]
  , cumPVPre := [cfg.total_inv]
  , cumDenom := 0
  , cumNumPre := cfg.total_inv
  , cumNumAfter := cfg.total_inv }

/-- One loop iteration (year `y`), total version: the body of
`for y in range(1, period + 1)` with `ad` the precomputed `annual_depr`. -/
def stepTotal (cfg : EngineCfg) (ad : ℚ) (s : TSState) (y : ℕ) : TSState :=
  let gen := cfg.gen y
  let df := 1 / (1 + cfg.wacc) ^ y
  let g_npv := gen * df
  let cum_denom2 := s.cumDenom + g_npv
  let opex_pre := cfg.opex
  let fuel_pre := cfg.fuel y
  let rep := cfg.rep y
  let sal_pre : ℚ := if y = cfg.period then -cfg.salvage_val else 0
  let net_pre := opex_pre + fuel_pre + rep + sal_pre
  let c_npv_pre := net_pre * df
  let cum_num_pre2 := s.cumNumPre + c_npv_pre
  let curr_depr : ℚ := if (y : ℤ) ≤ cfg.depr_years then ad else 0
  let tax_shield := curr_depr * cfg.tax_rate
  let opex_ben := (opex_pre + fuel_pre) * cfg.tax_rate
  let sal_after := sal_pre * (1 - cfg.tax_rate)
  let net_after := (opex_pre + fuel_pre - opex_ben) + rep - tax_shield + sal_after
  let c_npv_after := net_after * df
  let cum_num_after2 := s.cumNumAfter + c_npv_after
  { year := s.year ++ [(y : ℚ)]
  , generation := s.generation ++ [gen]
  , discountFactor := s.discountFactor ++ [df]
  , discountedGen := s.discountedGen ++ [g_npv]
  , cumDiscountedGen := s.cumDiscountedGen ++ [cum_denom2]
  , capex := s.capex ++ [0]
  , opexPre := s.opexPre ++ [opex_pre]
  , fuelPre := s.fuelPre ++ [fuel_pre]
  , replacement := s.replacement ++ [rep]
  , salvagePre := s.salvagePre ++ [sal_pre]
  , netPre := s.netPre ++ [net_pre]
  , depreciation := s.depreciation ++ [curr_depr]
  , taxShield := s.taxShield ++ [-tax_shield]
  , opexTaxBenefit := s.opexTaxBenefit ++ [-opex_ben]
  , salvageAfter := s.salvageAfter ++ [sal_after]
  , netAfter := s.netAfter ++ [net_after]
  , pvAfter := s.pvAfter ++ [c_npv_after]
  , cumPVAfter := s.cumPVAfter ++ [cum_num_after2]
  , pvPre := s.pvPre ++ [c_npv_pre]
  , cumPVPre := s.cumPVPre ++ [cum_num_pre2]
  , cumDenom := cum_denom2
  , cumNumPre := cum_num_pre2
  , cumNumAfter := cum_num_after2 }

/-- One loop iteration with the fault of `df = 1 / ((1+wacc)**y)`:
when `(1+wacc)^y = 0` Python raises `ZeroDivisionError`. -/
def step (cfg : EngineCfg) (ad : ℚ) (s : TSState) (y : ℕ) : Option TSState :=
  if (1 + cfg.wacc) ^ y = 0 then none else some (stepTotal cfg ad s y)

/-- The loop `for y in range(1, n + 1)` run left to right. -/
def loop (cfg : EngineCfg) (ad : ℚ) : ℕ → Option TSState
  | 0 => some (initState cfg)
  | n + 1 => (loop cfg ad n).bind (fun s => step cfg ad s (n + 1))

/-- What a track returns: the full time-series state and the three scalar
metrics printed by the source. -/
structure RunResult where
  ts : TSState
  lcoe_pre : ℚ
  lcoe_after : ℚ
  lcoe_ppa : ℚ

/-- The whole computation of one track: `annual_depr = total_inv / depr_years`
(a fault site), the year loop, then the three guarded ratios. -/
def runEngine (cfg : EngineCfg) : Option RunResult :=
  match pyDiv cfg.total_inv (cfg.depr_years : ℚ) with
  | none => none
  | some ad =>
    match loop cfg ad cfg.period with
    | none => none
    | some s =>
      let lcoe_pre := if s.cumDenom > 0 then s.cumNumPre / s.cumDenom * 10 else 0
      let lcoe_after := if s.cumDenom > 0 then s.cumNumAfter / s.cumDenom * 10 else 0
      let lcoe_ppa := if (1 - cfg.tax_rate) > 0 then lcoe_after / (1 - cfg.tax_rate) else 0
      some { ts := s, lcoe_pre := lcoe_pre, lcoe_after := lcoe_after, lcoe_ppa := lcoe_ppa }

/-- Inputs of `render_pv_ess_lcoe` (rates already divided by 100 as at the
input widgets; `period`, `depr_years`, `rep_yr` are the integer inputs). -/
structure PVParams where
  pv_cap : ℚ
  pv_hours : ℚ
  ess_cap : ℚ
  ess_cycles : ℚ
  pv_deg : ℚ
  ess_eff : ℚ
  capex_pv : ℚ
  capex_ess : ℚ
  capex_grid : ℚ
  opex_r_pv : ℚ
  opex_r_ess : ℚ
  opex_r_grid : ℚ
  wacc : ℚ
  tax_rate : ℚ
  salvage_rate : ℚ
  rep_cost : ℚ
  period : ℕ
  depr_years : ℤ
  rep_yr : ℤ

/-- The PV+ESS track as an `EngineCfg`:
`gen = pv_cap*pv_hours*deg + ess_cap*ess_cycles*ess_eff` with
`deg = 1 - (y-1)*pv_deg` clamped at 0; the fuel/charge line is 0;
`opex_pre = capex_pv*opex_r_pv + capex_ess*opex_r_ess + capex_grid*opex_r_grid`;
replacement at `rep_yr`; `salvage_val_pre = total_inv * salvage_rate`. -/
def pvCfg (p : PVParams) : EngineCfg :=
  { total_inv := p.capex_pv + p.capex_ess + p.capex_grid
  , wacc := p.wacc
  , tax_rate := p.tax_rate
  , depr_years := p.depr_years
  , period := p.period
  , opex := p.capex_pv * p.opex_r_pv + p.capex_ess * p.opex_r_ess + p.capex_grid * p.opex_r_grid
  , salvage_val := (p.capex_pv + p.capex_ess + p.capex_grid) * p.salvage_rate
  , gen := fun y =>
      p.pv_cap * p.pv_hours * (let d := 1 - ((y : ℚ) - 1) * p.pv_deg; if d < 0 then 0 else d)
        + p.ess_cap * p.ess_cycles * p.ess_eff
  , fuel := fun _ => 0
  , rep := fun y => if (y : ℤ) = p.rep_yr then p.rep_cost else 0 }

def render_pv_ess_lcoe (p : PVParams) : Option RunResult := runEngine (pvCfg p)

/-- Inputs of `render_gas_lcoe`. -/
structure GasParams where
  gas_cap : ℚ
  gas_capex : ℚ
  wacc : ℚ
  hours : ℚ
  heat_rate : ℚ
  price : ℚ
  fixed_opex : ℚ
  tax_rate : ℚ
  salvage_rate : ℚ
  period : ℕ
  depr_years : ℤ

/-- The gas track as an `EngineCfg`: `annual_gen = gas_cap * hours`;
`annual_fuel_pre = annual_gen * 1000 * heat_rate * price / 10000`;
no replacement; `sal_val_pre = gas_capex * salvage_rate`. -/
def gasCfg (p : GasParams) : EngineCfg :=
  { total_inv := p.gas_capex
  , wacc := p.wacc
  , tax_rate := p.tax_rate
  , depr_years := p.depr_years
  , period := p.period
  , opex := p.fixed_opex
  , salvage_val := p.gas_capex * p.salvage_rate
  , gen := fun _ => p.gas_cap * p.hours
  , fuel := fun _ => p.gas_cap * p.hours * 1000 * p.heat_rate * p.price / 10000
  , rep := fun _ => 0 }

def render_gas_lcoe (p : GasParams) : Option RunResult := runEngine (gasCfg p)

/-- Inputs of `render_lcos`. -/
structure LCOSParams where
  ess_cap : ℚ
  cycles : ℚ
  rte : ℚ
  deg : ℚ
  capex : ℚ
  opex_r : ℚ
  charge_p : ℚ
  wacc : ℚ
  tax_rate : ℚ
  salvage_rate : ℚ
  rep_cost : ℚ
  period : ℕ
  depr_years : ℤ
  rep_yr : ℤ

/-- The LCOS track as an `EngineCfg`:
`curr_cap = ess_cap * (1-deg)^(y-1)` (no clamp), `dis = curr_cap*cycles*rte`,
`charge_pre = curr_cap*cycles*1000*charge_p/10000`, `opex = capex*opex_r`,
replacement at `rep_yr`, `sal_val_pre = capex * salvage_rate`. -/
def lcosCfg (p : LCOSParams) : EngineCfg :=
  { total_inv := p.capex
  , wacc := p.wacc
  , tax_rate := p.tax_rate
  , depr_years := p.depr_years
  , period := p.period
  , opex := p.capex * p.opex_r
  , salvage_val := p.capex * p.salvage_rate
  , gen := fun y => p.ess_cap * (1 - p.deg) ^ (y - 1) * p.cycles * p.rte
  , fuel := fun y => p.ess_cap * (1 - p.deg) ^ (y - 1) * p.cycles * 1000 * p.charge_p / 10000
  , rep := fun y => if (y : ℤ) = p.rep_yr then p.rep_cost else 0 }

def render_lcos (p : LCOSParams) : Option RunResult := runEngine (lcosCfg p)

/-! ### Closed forms for the loop state -/

/-- `[f 1, f 2, ..., f n]`. -/
def listTo (f : ℕ → ℚ) : ℕ → List ℚ
  | 0 => []
  | n + 1 => listTo f n ++ [f (n + 1)]

/-- `f 1 + f 2 + ... + f n`. -/
def sumTo (f : ℕ → ℚ) : ℕ → ℚ
  | 0 => 0
  | n + 1 => sumTo f n + f (n + 1)

/-- Per-year discount factor `1 / (1+wacc)^y`. -/
def dfY (cfg : EngineCfg) (y : ℕ) : ℚ := 1 / (1 + cfg.wacc) ^ y

/-- Per-year pre-tax salvage line (negative inflow in the final year). -/
def salPreY (cfg : EngineCfg) (y : ℕ) : ℚ := if y = cfg.period then -cfg.salvage_val else 0

/-- Per-year pre-tax net cost flow. -/
def netPreY (cfg : EngineCfg) (y : ℕ) : ℚ := cfg.opex + cfg.fuel y + cfg.rep y + salPreY cfg y

/-- Per-year straight-line depreciation (`ad` for years up to `depr_years`). -/
def deprY (cfg : EngineCfg) (ad : ℚ) (y : ℕ) : ℚ := if (y : ℤ) ≤ cfg.depr_years then ad else 0

/-- Per-year after-tax net cost flow, as assembled in the loop body. -/
def netAfterY (cfg : EngineCfg) (ad : ℚ) (y : ℕ) : ℚ :=
  (cfg.opex + cfg.fuel y - (cfg.opex + cfg.fuel y) * cfg.tax_rate) + cfg.rep y
    - deprY cfg ad y * cfg.tax_rate + salPreY cfg y * (1 - cfg.tax_rate)

/-- Running discounted-generation accumulator after year `n`. -/
def cumDenomF (cfg : EngineCfg) : ℕ → ℚ
  | 0 => 0
  | n + 1 => cumDenomF cfg n + cfg.gen (n + 1) * dfY cfg (n + 1)

/-- Running pre-tax discounted-cost accumulator after year `n`. -/
def cumPreF (cfg : EngineCfg) : ℕ → ℚ
  | 0 => cfg.total_inv
  | n + 1 => cumPreF cfg n + netPreY cfg (n + 1) * dfY cfg (n + 1)

/-- Running after-tax discounted-cost accumulator after year `n`. -/
def cumAfterF (cfg : EngineCfg) (ad : ℚ) : ℕ → ℚ
  | 0 => cfg.total_inv
  | n + 1 => cumAfterF cfg ad n + netAfterY cfg ad (n + 1) * dfY cfg (n + 1)

/-- The loop state after `n` iterations, in closed form. -/
def engineState (cfg : EngineCfg) (ad : ℚ) (n : ℕ) : TSState :=
  { year := 0 :: listTo (fun y => (y : ℚ)) n
  , generation := 0 :: listTo cfg.gen n
  , discountFactor := 1 :: listTo (dfY cfg) n
  , discountedGen := 0 :: listTo (fun y => cfg.gen y * dfY cfg y) n
  , cumDiscountedGen := 0 :: listTo (cumDenomF cfg) n
  , capex := cfg.total_inv :: listTo (fun _ => 0) n
  , opexPre := 0 :: listTo (fun _ => cfg.opex) n
  , fuelPre := 0 :: listTo cfg.fuel n
  , replacement := 0 :: listTo cfg.rep n
  , salvagePre := 0 :: listTo (salPreY cfg) n
  , netPre := cfg.total_inv :: listTo (netPreY cfg) n
  , depreciation := 0 :: listTo (deprY cfg ad) n
  , taxShield := 0 :: listTo (fun y => -(deprY cfg ad y * cfg.tax_rate)) n
  , opexTaxBenefit := 0 :: listTo (fun y => -((cfg.opex + cfg.fuel y) * cfg.tax_rate)) n
  , salvageAfter := 0 :: listTo (fun y => salPreY cfg y * (1 - cfg.tax_rate)) n
  , netAfter := cfg.total_inv :: listTo (netAfterY cfg ad) n
  , pvAfter := cfg.total_inv :: listTo (fun y => netAfterY cfg ad y * dfY cfg y) n
  , cumPVAfter := cfg.total_inv :: listTo (cumAfterF cfg ad) n
  , pvPre := cfg.total_inv :: listTo (fun y => netPreY cfg y * dfY cfg y) n
  , cumPVPre := cfg.total_inv :: listTo (cumPreF cfg) n
  , cumDenom := cumDenomF cfg n
  , cumNumPre := cumPreF cfg n
  , cumNumAfter := cumAfterF cfg ad n }

/-- Straight-line annual depreciation amount. -/
def adOf (cfg : EngineCfg) : ℚ := cfg.total_inv / (cfg.depr_years : ℚ)

/-- The result of a run that does not fault, in closed form. -/
def runTotal (cfg : EngineCfg) : RunResult :=
  let s := engineState cfg (adOf cfg) cfg.period
  let lcoe_pre := if s.cumDenom > 0 then s.cumNumPre / s.cumDenom * 10 else 0
  let lcoe_after := if s.cumDenom > 0 then s.cumNumAfter / s.cumDenom * 10 else 0
  let lcoe_ppa := if (1 - cfg.tax_rate) > 0 then lcoe_after / (1 - cfg.tax_rate) else 0
  { ts := s, lcoe_pre := lcoe_pre, lcoe_after := lcoe_after, lcoe_ppa := lcoe_ppa }

/-! ### Aggregate sums in the shape the specification states them -/

/-- `sum_pv_output`: discounted output accumulated over years `1..period`. -/
def discGenSum (cfg : EngineCfg) : ℚ := sumTo (fun y => cfg.gen y * dfY cfg y) cfg.period

/-- `sum_pv_cost` (pre-tax): year-0 investment plus discounted pre-tax flows. -/
def preTaxNPV (cfg : EngineCfg) : ℚ :=
  cfg.total_inv + sumTo (fun y => netPreY cfg y * dfY cfg y) cfg.period

/-- `sum_pv_cost` (after-tax): year-0 investment plus discounted after-tax flows. -/
def afterTaxNPV (cfg : EngineCfg) : ℚ :=
  cfg.total_inv + sumTo (fun y => netAfterY cfg (adOf cfg) y * dfY cfg y) cfg.period

/-- The after-tax levelized cost, as a closed formula. -/
def afterTaxLCOE (cfg : EngineCfg) : ℚ :=
  if discGenSum cfg > 0 then afterTaxNPV cfg / discGenSum cfg * 10 else 0

/-- Undiscounted nominal cost sum (year-0 investment plus nominal flows). -/
def nominalCostSum (cfg : EngineCfg) : ℚ := cfg.total_inv + sumTo (netPreY cfg) cfg.period

/-- After-tax salvage benefit of year `y` (the final year). -/
def salvBenefitY (cfg : EngineCfg) (y : ℕ) : ℚ :=
  (if y = cfg.period then cfg.salvage_val else 0) * (1 - cfg.tax_rate)

/-- The numerator of the levered breakeven equation when the debt is zero:
initial equity is the whole investment and the interest/principal terms
vanish, leaving
`total_inv + Σ df_y * ((opex+fuel)*(1-t) + replacement - depreciation*t - salvage_benefit)`. -/
def leveredNumZeroDebt (cfg : EngineCfg) : ℚ :=
  cfg.total_inv + sumTo (fun y => dfY cfg y *
    ((cfg.opex + cfg.fuel y) * (1 - cfg.tax_rate) + cfg.rep y
      - deprY cfg (adOf cfg) y * cfg.tax_rate - salvBenefitY cfg y)) cfg.period

/-! ### Definitions modelled from the spec (no counterpart in src/) -/

/-- Modelled from the spec: net exported output under self-supplied charging
(spec 4.1), `raw_generation - charge_energy*(1-round_trip_efficiency)`.
src/app.py has no such formula. -/
def specSelfSuppliedOutput (raw charge eff : ℚ) : ℚ := raw - charge * (1 - eff)

/-- Modelled from the spec: DebtAmortizationModule balance (spec 4.4), equal
principal over `nterm` years, clamped at 0.  No debt module exists in src/. -/
def debtBalance (initial_debt : ℚ) (nterm : ℕ) : ℕ → ℚ
  | 0 => initial_debt
  | y + 1 =>
      max (debtBalance initial_debt nterm y
        - (if y + 1 ≤ nterm then initial_debt / (nterm : ℚ) else 0)) 0

/-- Modelled from the spec: per-year principal payment (spec 4.4). -/
def debtPrincipal (initial_debt : ℚ) (nterm : ℕ) (y : ℕ) : ℚ :=
  if 1 ≤ y ∧ y ≤ nterm then initial_debt / (nterm : ℚ) else 0

/-- Modelled from the spec: per-year interest `balance_{y-1} * cost_of_debt`,
zero after the loan term (spec 4.4). -/
def debtInterest (initial_debt cost_of_debt : ℚ) (nterm : ℕ) (y : ℕ) : ℚ :=
  if 1 ≤ y ∧ y ≤ nterm then debtBalance initial_debt nterm (y - 1) * cost_of_debt else 0

/-- Modelled from the spec: the investor breakeven price of spec 4.6, the
levered equation with the spec 4.4 debt schedule,
`Price = NPV(equity + Σ[(opex+fuel)(1-t) + interest(1-t) + principal
+ replacement - depreciation*t - salvage_benefit]) / NPV(output*(1-t)) * 10`.
src/app.py has no debt inputs at all. -/
def specBreakevenPrice (cfg : EngineCfg) (debt_share cost_of_debt : ℚ) (loan_term : ℕ) : ℚ :=
  let initial_debt := debt_share * cfg.total_inv
  let equity := cfg.total_inv - initial_debt
  let nterm := min cfg.period loan_term
  let t := cfg.tax_rate
  let num := equity + sumTo (fun y => dfY cfg y *
      ((cfg.opex + cfg.fuel y) * (1 - t)
        + debtInterest initial_debt cost_of_debt nterm y * (1 - t)
        + debtPrincipal initial_debt nterm y + cfg.rep y
        - deprY cfg (adOf cfg) y * t
        - (if y = cfg.period then cfg.salvage_val else 0) * (1 - t))) cfg.period
  let den := sumTo (fun y => cfg.gen y * (1 - t) * dfY cfg y) cfg.period
  num / den * 10

/-- Boolean nonnegativity test on `ℚ`. -/
def qNonneg (x : ℚ) : Bool := decide (0 ≤ x)

/-! ### Concrete inputs used in counterexamples and witnesses -/

/-- A minimal PV-track input: 1 MW, 1 hour, no storage, capex 100,
zero rates, one year, one depreciation year. -/
def pvA : PVParams :=
  { pv_cap := 1, pv_hours := 1, ess_cap := 0, ess_cycles := 0, pv_deg := 0, ess_eff := 85/100
  , capex_pv := 100, capex_ess := 0, capex_grid := 0
  , opex_r_pv := 0, opex_r_ess := 0, opex_r_grid := 0
  , wacc := 0, tax_rate := 0, salvage_rate := 0, rep_cost := 0
  , period := 1, depr_years := 1, rep_yr := 10 }

/-- The source defaults of the PV track, with the horizon shortened to 2. -/
def pvB : PVParams :=
  { pv_cap := 200, pv_hours := 2200, ess_cap := 120, ess_cycles := 1000, pv_deg := 5/1000
  , ess_eff := 85/100, capex_pv := 50000, capex_ess := 10000, capex_grid := 15000
  , opex_r_pv := 15/1000, opex_r_ess := 3/100, opex_r_grid := 1/100
  , wacc := 8/100, tax_rate := 25/100, salvage_rate := 5/100, rep_cost := 5000
  , period := 2, depr_years := 20, rep_yr := 10 }

/-- `pvB` with a zero depreciation horizon. -/
def pvC : PVParams := { pvB with depr_years := 0, period := 1 }

/-- Zero capacity and hours together with a zero depreciation horizon. -/
def pvD : PVParams := { pvA with pv_cap := 0, pv_hours := 0, depr_years := 0 }

/-- A negative PV capacity (the boundary accepts it). -/
def pvE : PVParams := { pvB with pv_cap := -200, period := 1 }

/-- Like `pvE` but with the capacity clamped to 0 by hand. -/
def pvF : PVParams := { pvB with pv_cap := 0, period := 1 }

/-- `pvA` with a negative depreciation horizon. -/
def pvG : PVParams := { pvA with depr_years := -3 }

/-- Zero capacity and hours, valid depreciation horizon. -/
def pvH : PVParams := { pvA with pv_cap := 0, pv_hours := 0 }

/-- Negative capacity and horizon 0 (`horizon < 1`). -/
def pvI : PVParams := { pvA with pv_cap := -5, period := 0 }

/-- The scenario of the spec test: capacity 200, hours 2200, no degradation,
horizon 2, capex 50000, opex rate 1.5 percent, WACC 8 percent, no storage,
no replacement, no salvage. -/
def pvScen : PVParams :=
  { pv_cap := 200, pv_hours := 2200, ess_cap := 0, ess_cycles := 0, pv_deg := 0, ess_eff := 85/100
  , capex_pv := 50000, capex_ess := 0, capex_grid := 0
  , opex_r_pv := 15/1000, opex_r_ess := 0, opex_r_grid := 0
  , wacc := 8/100, tax_rate := 25/100, salvage_rate := 0, rep_cost := 0
  , period := 2, depr_years := 20, rep_yr := 10 }

/-- The source defaults of the LCOS track with a 150 percent degradation
rate (the boundary accepts it) and the horizon shortened to 2. -/
def lcosA : LCOSParams :=
  { ess_cap := 200, cycles := 330, rte := 85/100, deg := 150/100, capex := 25000, opex_r := 2/100
  , charge_p := 2/10, wacc := 8/100, tax_rate := 25/100, salvage_rate := 3/100, rep_cost := 10000
  , period := 2, depr_years := 15, rep_yr := 8 }

/-! ### The loop computes the closed-form state -/

lemma stepTotal_closed (cfg : EngineCfg) (ad : ℚ) (n : ℕ) :
    stepTotal cfg ad (engineState cfg ad n) (n + 1) = engineState cfg ad (n + 1) := rfl

lemma loop_some (cfg : EngineCfg) (ad : ℚ) (hw : (1 : ℚ) + cfg.wacc ≠ 0) :
    ∀ n, loop cfg ad n = some (engineState cfg ad n) := by
  intro n
  induction n with
  | zero => rfl
  | succ n ih =>
    simp only [loop, ih, Option.some_bind]
    show step cfg ad (engineState cfg ad n) (n + 1) = _
    rw [step, if_neg (pow_ne_zero _ hw)]
    exact congrArg some (stepTotal_closed cfg ad n)

lemma runEngine_eq (cfg : EngineCfg) (hd : cfg.depr_years ≠ 0) (hw : cfg.wacc ≠ -1) :
    runEngine cfg = some (runTotal cfg) := by
  have hq : (cfg.depr_years : ℚ) ≠ 0 := Int.cast_ne_zero.mpr hd
  have hw1 : (1 : ℚ) + cfg.wacc ≠ 0 := fun h => hw (by linarith)
  have h1 := loop_some cfg (cfg.total_inv / (cfg.depr_years : ℚ)) hw1 cfg.period
  simp only [runEngine, pyDiv, if_neg hq, h1]
  rfl

/-! ### Small facts about `listTo` and `sumTo` -/

lemma listTo_length (f : ℕ → ℚ) : ∀ n, (listTo f n).length = n := by
  intro n
  induction n with
  | zero => rfl
  | succ n ih => simp [listTo, ih]

lemma listTo_getElem (f : ℕ → ℚ) :
    ∀ n i, i < n → (listTo f n)[i]? = some (f (i + 1)) := by
  intro n
  induction n with
  | zero => intro i hi; omega
  | succ n ih =>
    intro i hi
    rw [listTo]
    rcases Nat.lt_or_ge i n with h | h
    · rw [List.getElem?_append_left (by simpa [listTo_length] using h), ih i h]
    · have hi2 : i = n := by omega
      subst hi2
      have hc := List.getElem?_concat_length (listTo f i) (f (i + 1))
      rw [listTo_length f i] at hc
      exact hc

lemma mem_listTo {f : ℕ → ℚ} : ∀ {n x}, x ∈ listTo f n → ∃ y, x = f y := by
  intro n
  induction n with
  | zero => intro x hx; simp [listTo] at hx
  | succ n ih =>
    intro x hx
    rw [listTo, List.mem_append] at hx
    rcases hx with hx | hx
    · exact ih hx
    · exact ⟨n + 1, by simpa using hx⟩

lemma listTo_congr {f g : ℕ → ℚ} : ∀ n, (∀ y, 1 ≤ y → y ≤ n → f y = g y) →
    listTo f n = listTo g n := by
  intro n
  induction n with
  | zero => intro _; rfl
  | succ n ih =>
    intro h
    rw [listTo, listTo, ih (fun y h1 h2 => h y h1 (by omega)), h (n + 1) (by omega) le_rfl]

lemma listTo_const (c : ℚ) : ∀ n, listTo (fun _ => c) n = List.replicate n c := by
  intro n
  induction n with
  | zero => rfl
  | succ n ih => rw [listTo, ih, List.replicate_succ']

lemma sumTo_congr {f g : ℕ → ℚ} (h : ∀ y, f y = g y) : ∀ n, sumTo f n = sumTo g n := by
  have : f = g := funext h
  intro n
  rw [this]

lemma cumDenomF_eq (cfg : EngineCfg) :
    ∀ n, cumDenomF cfg n = sumTo (fun y => cfg.gen y * dfY cfg y) n := by
  intro n
  induction n with
  | zero => rfl
  | succ n ih => rw [cumDenomF, sumTo, ih]

lemma cumPreF_eq (cfg : EngineCfg) :
    ∀ n, cumPreF cfg n = cfg.total_inv + sumTo (fun y => netPreY cfg y * dfY cfg y) n := by
  intro n
  induction n with
  | zero => simp [cumPreF, sumTo]
  | succ n ih => rw [cumPreF, sumTo, ih]; ring

lemma cumAfterF_eq (cfg : EngineCfg) (ad : ℚ) :
    ∀ n, cumAfterF cfg ad n = cfg.total_inv + sumTo (fun y => netAfterY cfg ad y * dfY cfg y) n := by
  intro n
  induction n with
  | zero => simp [cumAfterF, sumTo]
  | succ n ih => rw [cumAfterF, sumTo, ih]; ring

lemma leveredNum_eq (cfg : EngineCfg) : leveredNumZeroDebt cfg = afterTaxNPV cfg := by
  rw [leveredNumZeroDebt, afterTaxNPV]
  congr 1
  refine sumTo_congr (fun y => ?_) cfg.period
  rw [netAfterY, salvBenefitY, salPreY]
  split_ifs <;> ring

/-! ### Claims -/

/-- Claim C4: on the scenario (capacity 200, hours 2200, no degradation,
horizon 2, capex 50000, opex rate 1.5 percent, WACC 8 percent, no storage,
no replacement, no salvage) the engine yields year-1 output 440000, year-1
opex 750, and pre-tax technical LCOE
`(50000 + 750/1.08 + 750/1.08^2) / (440000/1.08 + 440000/1.08^2) * 10`
(exactly, hence to 4 decimals); in general the technical LCOE is
`sum_pv_cost_pretax / sum_pv_output * 10` whenever the discounted output
is positive. -/
theorem C4_technical_lcoe :
    ((render_pv_ess_lcoe pvScen).map
        (fun r => (r.ts.generation[1]?, r.ts.opexPre[1]?, r.lcoe_pre)) =
      some (some 440000, some 750,
        (50000 + 750 / (108/100) + 750 / (108/100) ^ 2) / (440000 / (108/100) + 440000 / (108/100) ^ 2) * 10))
    ∧ (∀ cfg : EngineCfg, cfg.depr_years ≠ 0 → cfg.wacc ≠ -1 → 0 < discGenSum cfg →
        (runEngine cfg).map RunResult.lcoe_pre = some (preTaxNPV cfg / discGenSum cfg * 10)) := by
  constructor
  · decide!
  · intro cfg hd hw hden
    rw [runEngine_eq cfg hd hw, Option.map_some']
    simp only [runTotal, engineState]
    rw [cumDenomF_eq, cumPreF_eq, ← discGenSum, ← preTaxNPV, if_pos hden]

/-- Witness for C4: the general formula applied to the scenario input. -/
theorem C4_technical_lcoe_witness :
    ((pvCfg pvScen).depr_years ≠ 0 ∧ (pvCfg pvScen).wacc ≠ -1 ∧ 0 < discGenSum (pvCfg pvScen))
    ∧ (runEngine (pvCfg pvScen)).map RunResult.lcoe_pre =
        some (preTaxNPV (pvCfg pvScen) / discGenSum (pvCfg pvScen) * 10) :=
  ⟨⟨by decide!, by decide!, by decide!⟩,
    C4_technical_lcoe.2 (pvCfg pvScen) (by decide!) (by decide!) (by decide!)⟩

/-- Claim C10: in all three tracks the breakeven PPA price is the after-tax
LCOE divided by `1 - tax_rate` when `tax_rate < 1` and 0 otherwise, with no
debt, interest, principal or equity term involved. -/
theorem C10_breakeven_ppa :
    (∀ p : PVParams, p.depr_years ≠ 0 → p.wacc ≠ -1 →
      (render_pv_ess_lcoe p).map (fun r => (r.lcoe_after, r.lcoe_ppa)) =
        some (afterTaxLCOE (pvCfg p),
          if 1 - p.tax_rate > 0 then afterTaxLCOE (pvCfg p) / (1 - p.tax_rate) else 0))
    ∧ (∀ p : GasParams, p.depr_years ≠ 0 → p.wacc ≠ -1 →
      (render_gas_lcoe p).map (fun r => (r.lcoe_after, r.lcoe_ppa)) =
        some (afterTaxLCOE (gasCfg p),
          if 1 - p.tax_rate > 0 then afterTaxLCOE (gasCfg p) / (1 - p.tax_rate) else 0))
    ∧ (∀ p : LCOSParams, p.depr_years ≠ 0 → p.wacc ≠ -1 →
      (render_lcos p).map (fun r => (r.lcoe_after, r.lcoe_ppa)) =
        some (afterTaxLCOE (lcosCfg p),
          if 1 - p.tax_rate > 0 then afterTaxLCOE (lcosCfg p) / (1 - p.tax_rate) else 0)) := by
  refine ⟨fun p hd hw => ?_, fun p hd hw => ?_, fun p hd hw => ?_⟩
  · rw [render_pv_ess_lcoe, runEngine_eq _ hd hw, Option.map_some']
    simp only [runTotal, engineState]
    rw [cumDenomF_eq, cumAfterF_eq, ← discGenSum, ← afterTaxNPV, ← afterTaxLCOE]
    rfl
  · rw [render_gas_lcoe, runEngine_eq _ hd hw, Option.map_some']
    simp only [runTotal, engineState]
    rw [cumDenomF_eq, cumAfterF_eq, ← discGenSum, ← afterTaxNPV, ← afterTaxLCOE]
    rfl
  · rw [render_lcos, runEngine_eq _ hd hw, Option.map_some']
    simp only [runTotal, engineState]
    rw [cumDenomF_eq, cumAfterF_eq, ← discGenSum, ← afterTaxNPV, ← afterTaxLCOE]
    rfl

/-- Witness for C10: the PV part at the minimal input. -/
theorem C10_breakeven_ppa_witness :
    (pvA.depr_years ≠ 0 ∧ pvA.wacc ≠ -1)
    ∧ (render_pv_ess_lcoe pvA).map (fun r => (r.lcoe_after, r.lcoe_ppa)) =
        some (afterTaxLCOE (pvCfg pvA),
          if 1 - pvA.tax_rate > 0 then afterTaxLCOE (pvCfg pvA) / (1 - pvA.tax_rate) else 0) :=
  ⟨⟨by decide!, by decide!⟩, C10_breakeven_ppa.1 pvA (by decide!) (by decide!)⟩

/-- Claim C8: with `discount_rate = 0` every discount factor is 1 and the
accumulated pre-tax `sum_pv_cost` is the plain nominal sum of the cost flows
(shown for the PV and gas tracks, whose loops the claim cites). -/
theorem C8_zero_discount :
    (∀ p : PVParams, p.wacc = 0 → p.depr_years ≠ 0 →
      (render_pv_ess_lcoe p).map (fun r => (r.ts.discountFactor, r.ts.cumNumPre)) =
        some (List.replicate (p.period + 1) 1, nominalCostSum (pvCfg p)))
    ∧ (∀ p : GasParams, p.wacc = 0 → p.depr_years ≠ 0 →
      (render_gas_lcoe p).map (fun r => (r.ts.discountFactor, r.ts.cumNumPre)) =
        some (List.replicate (p.period + 1) 1, nominalCostSum (gasCfg p))) := by
  constructor
  · intro p h0 hd
    have hw : p.wacc ≠ -1 := by rw [h0]; norm_num
    have hdf : dfY (pvCfg p) = fun _ => 1 := by
      funext y
      simp [dfY, pvCfg, h0]
    rw [render_pv_ess_lcoe, runEngine_eq _ hd hw, Option.map_some']
    simp only [runTotal, engineState]
    rw [hdf, listTo_const, ← List.replicate_succ, cumPreF_eq, nominalCostSum]
    refine congrArg some (congrArg _ (congrArg _ ?_))
    refine sumTo_congr (fun y => ?_) _
    rw [hdf]
    exact mul_one _
  · intro p h0 hd
    have hw : p.wacc ≠ -1 := by rw [h0]; norm_num
    have hdf : dfY (gasCfg p) = fun _ => 1 := by
      funext y
      simp [dfY, gasCfg, h0]
    rw [render_gas_lcoe, runEngine_eq _ hd hw, Option.map_some']
    simp only [runTotal, engineState]
    rw [hdf, listTo_const, ← List.replicate_succ, cumPreF_eq, nominalCostSum]
    refine congrArg some (congrArg _ (congrArg _ ?_))
    refine sumTo_congr (fun y => ?_) _
    rw [hdf]
    exact mul_one _

/-- Witness for C8: the PV part at the minimal input, whose WACC is 0. -/
theorem C8_zero_discount_witness :
    (pvA.wacc = 0 ∧ pvA.depr_years ≠ 0)
    ∧ (render_pv_ess_lcoe pvA).map (fun r => (r.ts.discountFactor, r.ts.cumNumPre)) =
        some (List.replicate (pvA.period + 1) 1, nominalCostSum (pvCfg pvA)) :=
  ⟨⟨by decide!, by decide!⟩, C8_zero_discount.1 pvA (by decide!) (by decide!)⟩

/-- Claim C9: after a run in any of the three tracks, all twenty time-series
columns have length `horizon + 1`, and row 0 is the construction-year record
(`Year[0] = 0`, `Discount Factor[0] = 1`, `Capex[0] =` total investment,
`Generation[0] = 0`). -/
theorem C9_column_alignment :
    (∀ p : PVParams, p.depr_years ≠ 0 → p.wacc ≠ -1 →
      (render_pv_ess_lcoe p).map (fun r =>
        ([r.ts.year.length, r.ts.generation.length, r.ts.discountFactor.length,
          r.ts.discountedGen.length, r.ts.cumDiscountedGen.length, r.ts.capex.length,
          r.ts.opexPre.length, r.ts.fuelPre.length, r.ts.replacement.length,
          r.ts.salvagePre.length, r.ts.netPre.length, r.ts.depreciation.length,
          r.ts.taxShield.length, r.ts.opexTaxBenefit.length, r.ts.salvageAfter.length,
          r.ts.netAfter.length, r.ts.pvAfter.length, r.ts.cumPVAfter.length,
          r.ts.pvPre.length, r.ts.cumPVPre.length],
         (r.ts.year[0]?, r.ts.discountFactor[0]?, r.ts.capex[0]?, r.ts.generation[0]?))) =
      some (List.replicate 20 (p.period + 1),
         (some 0, some 1, some (p.capex_pv + p.capex_ess + p.capex_grid), some 0)))
    ∧ (∀ p : GasParams, p.depr_years ≠ 0 → p.wacc ≠ -1 →
      (render_gas_lcoe p).map (fun r =>
        ([r.ts.year.length, r.ts.generation.length, r.ts.discountFactor.length,
          r.ts.discountedGen.length, r.ts.cumDiscountedGen.length, r.ts.capex.length,
          r.ts.opexPre.length, r.ts.fuelPre.length, r.ts.replacement.length,
          r.ts.salvagePre.length, r.ts.netPre.length, r.ts.depreciation.length,
          r.ts.taxShield.length, r.ts.opexTaxBenefit.length, r.ts.salvageAfter.length,
          r.ts.netAfter.length, r.ts.pvAfter.length, r.ts.cumPVAfter.length,
          r.ts.pvPre.length, r.ts.cumPVPre.length],
         (r.ts.year[0]?, r.ts.discountFactor[0]?, r.ts.capex[0]?, r.ts.generation[0]?))) =
      some (List.replicate 20 (p.period + 1),
         (some 0, some 1, some p.gas_capex, some 0)))
    ∧ (∀ p : LCOSParams, p.depr_years ≠ 0 → p.wacc ≠ -1 →
      (render_lcos p).map (fun r =>
        ([r.ts.year.length, r.ts.generation.length, r.ts.discountFactor.length,
          r.ts.discountedGen.length, r.ts.cumDiscountedGen.length, r.ts.capex.length,
          r.ts.opexPre.length, r.ts.fuelPre.length, r.ts.replacement.length,
          r.ts.salvagePre.length, r.ts.netPre.length, r.ts.depreciation.length,
          r.ts.taxShield.length, r.ts.opexTaxBenefit.length, r.ts.salvageAfter.length,
          r.ts.netAfter.length, r.ts.pvAfter.length, r.ts.cumPVAfter.length,
          r.ts.pvPre.length, r.ts.cumPVPre.length],
         (r.ts.year[0]?, r.ts.discountFactor[0]?, r.ts.capex[0]?, r.ts.generation[0]?))) =
      some (List.replicate 20 (p.period + 1),
         (some 0, some 1, some p.capex, some 0))) := by
  refine ⟨fun p hd hw => ?_, fun p hd hw => ?_, fun p hd hw => ?_⟩
  · rw [render_pv_ess_lcoe, runEngine_eq _ hd hw, Option.map_some']
    simp only [runTotal, engineState, List.length_cons, listTo_length, List.getElem?_cons_zero]
    rfl
  · rw [render_gas_lcoe, runEngine_eq _ hd hw, Option.map_some']
    simp only [runTotal, engineState, List.length_cons, listTo_length, List.getElem?_cons_zero]
    rfl
  · rw [render_lcos, runEngine_eq _ hd hw, Option.map_some']
    simp only [runTotal, engineState, List.length_cons, listTo_length, List.getElem?_cons_zero]
    rfl

/-- Witness for C9: the PV part at the minimal input. -/
theorem C9_column_alignment_witness :
    (pvA.depr_years ≠ 0 ∧ pvA.wacc ≠ -1)
    ∧ (render_pv_ess_lcoe pvA).map (fun r =>
        ([r.ts.year.length, r.ts.generation.length, r.ts.discountFactor.length,
          r.ts.discountedGen.length, r.ts.cumDiscountedGen.length, r.ts.capex.length,
          r.ts.opexPre.length, r.ts.fuelPre.length, r.ts.replacement.length,
          r.ts.salvagePre.length, r.ts.netPre.length, r.ts.depreciation.length,
          r.ts.taxShield.length, r.ts.opexTaxBenefit.length, r.ts.salvageAfter.length,
          r.ts.netAfter.length, r.ts.pvAfter.length, r.ts.cumPVAfter.length,
          r.ts.pvPre.length, r.ts.cumPVPre.length],
         (r.ts.year[0]?, r.ts.discountFactor[0]?, r.ts.capex[0]?, r.ts.generation[0]?))) =
      some (List.replicate 20 (pvA.period + 1),
         (some 0, some 1, some (pvA.capex_pv + pvA.capex_ess + pvA.capex_grid), some 0)) :=
  ⟨⟨by decide!, by decide!⟩, C9_column_alignment.1 pvA (by decide!) (by decide!)⟩

/-- Counterexample to claim C1: the code's breakeven price does not satisfy
the levered equation with the spec's debt schedule.  At `pvA` (one year,
investment 100, one unit of output, zero rates) the code returns 1000,
while the levered equation with `debt_ratio = 1/2`, `cost_of_debt = 1/10`
and a 15-year maximum loan term prices at
`(equity 50 + interest 5 + principal 50) / 1 * 10 = 1050`.  src/app.py has
no debt schedule: `lcoe_ppa = lcoe_after / (1 - tax_rate)`. -/
theorem C1_levered_counterexample :
    (render_pv_ess_lcoe pvA).map RunResult.lcoe_ppa = some 1000
    ∧ specBreakevenPrice (pvCfg pvA) (1/2) (1/10) 15 = 1050
    ∧ ((1000 : ℚ) ≠ 1050) := by
  refine ⟨by decide!, by decide!, by decide!⟩

/-- Claim C1 amended: in all three tracks the breakeven price satisfies the
levered equation only in its zero-debt form: interest and principal are 0,
the initial equity outlay is the whole investment, and
`Price = (total_inv + Σ df*((opex+fuel)(1-t) + replacement - depreciation*t
- salvage_benefit)) / ((1-t) * NPV(output)) * 10`. -/
theorem C1_breakeven_zero_debt :
    (∀ p : PVParams, p.depr_years ≠ 0 → p.wacc ≠ -1 →
      0 < discGenSum (pvCfg p) → p.tax_rate < 1 →
      (render_pv_ess_lcoe p).map RunResult.lcoe_ppa =
        some (leveredNumZeroDebt (pvCfg p) / ((1 - p.tax_rate) * discGenSum (pvCfg p)) * 10))
    ∧ (∀ p : GasParams, p.depr_years ≠ 0 → p.wacc ≠ -1 →
      0 < discGenSum (gasCfg p) → p.tax_rate < 1 →
      (render_gas_lcoe p).map RunResult.lcoe_ppa =
        some (leveredNumZeroDebt (gasCfg p) / ((1 - p.tax_rate) * discGenSum (gasCfg p)) * 10))
    ∧ (∀ p : LCOSParams, p.depr_years ≠ 0 → p.wacc ≠ -1 →
      0 < discGenSum (lcosCfg p) → p.tax_rate < 1 →
      (render_lcos p).map RunResult.lcoe_ppa =
        some (leveredNumZeroDebt (lcosCfg p) / ((1 - p.tax_rate) * discGenSum (lcosCfg p)) * 10)) := by
  have key : ∀ cfg : EngineCfg, cfg.depr_years ≠ 0 → cfg.wacc ≠ -1 →
      0 < discGenSum cfg → cfg.tax_rate < 1 →
      (runEngine cfg).map RunResult.lcoe_ppa =
        some (leveredNumZeroDebt cfg / ((1 - cfg.tax_rate) * discGenSum cfg) * 10) := by
    intro cfg hd hw hden ht
    have ht1 : (0 : ℚ) < 1 - cfg.tax_rate := by linarith
    rw [runEngine_eq _ hd hw, Option.map_some']
    simp only [runTotal, engineState]
    rw [cumDenomF_eq, cumAfterF_eq, ← discGenSum, ← afterTaxNPV, if_pos hden, if_pos ht1,
      leveredNum_eq]
    refine congrArg some ?_
    rw [div_mul_eq_mul_div, div_div, div_mul_eq_mul_div,
      mul_comm (discGenSum cfg) (1 - cfg.tax_rate)]
  exact ⟨fun p hd hw hden ht => key (pvCfg p) hd hw hden ht,
    fun p hd hw hden ht => key (gasCfg p) hd hw hden ht,
    fun p hd hw hden ht => key (lcosCfg p) hd hw hden ht⟩

/-- Witness for C1: the zero-debt breakeven relation at the minimal input. -/
theorem C1_breakeven_zero_debt_witness :
    (pvA.depr_years ≠ 0 ∧ pvA.wacc ≠ -1 ∧ 0 < discGenSum (pvCfg pvA) ∧ pvA.tax_rate < 1)
    ∧ (render_pv_ess_lcoe pvA).map RunResult.lcoe_ppa =
        some (leveredNumZeroDebt (pvCfg pvA) / ((1 - pvA.tax_rate) * discGenSum (pvCfg pvA)) * 10) :=
  ⟨⟨by decide!, by decide!, by decide!, by decide!⟩,
    C1_breakeven_zero_debt.1 pvA (by decide!) (by decide!) (by decide!) (by decide!)⟩

/-- Counterexample to claim C2: at the source defaults (raw year-1 generation
`200*2200 = 440000`, `charge_energy = 120*1000`, efficiency 85 percent) the
claimed self-supplied output `raw - charge*(1-eff)` is 422000, but the code
exports `raw + charge*eff = 542000`: the discharge is added to the output
instead of only the round-trip loss being deducted.  The fuel line is 0. -/
theorem C2_output_counterexample :
    (render_pv_ess_lcoe pvB).map (fun r => (r.ts.generation[1]?, r.ts.fuelPre[1]?)) =
      some (some 542000, some 0)
    ∧ specSelfSuppliedOutput 440000 (120 * 1000) (85/100) = 422000
    ∧ ((542000 : ℚ) ≠ 422000) :=
  ⟨by decide!, by decide!, by decide!⟩

/-- Claim C2 amended: in the PV+storage track the output recorded for year
`y` is `raw_generation + charge_energy * efficiency` (the storage discharge
is added as an extra source), with the degradation factor clamped at 0, and
the fuel/charging line of the year is 0. -/
theorem C2_output_amended :
    ∀ (p : PVParams) (y : ℕ), p.depr_years ≠ 0 → p.wacc ≠ -1 → 1 ≤ y → y ≤ p.period →
      (render_pv_ess_lcoe p).map (fun r => (r.ts.generation[y]?, r.ts.fuelPre[y]?)) =
        some (some (p.pv_cap * p.pv_hours *
            (let d := 1 - ((y : ℚ) - 1) * p.pv_deg; if d < 0 then 0 else d)
          + p.ess_cap * p.ess_cycles * p.ess_eff), some 0) := by
  intro p y hd hw h1 h2
  obtain ⟨k, rfl⟩ : ∃ k, y = k + 1 := ⟨y - 1, by omega⟩
  have hk : k < (pvCfg p).period := by
    simp only [pvCfg]
    omega
  rw [render_pv_ess_lcoe, runEngine_eq _ hd hw, Option.map_some']
  simp only [runTotal, engineState]
  rw [List.getElem?_cons_succ, List.getElem?_cons_succ,
    listTo_getElem _ _ k hk, listTo_getElem _ _ k hk]
  rfl

/-- Witness for C2: the amended output formula at the defaults, year 1. -/
theorem C2_output_witness :
    (pvB.depr_years ≠ 0 ∧ pvB.wacc ≠ -1 ∧ 1 ≤ pvB.period)
    ∧ (render_pv_ess_lcoe pvB).map (fun r => (r.ts.generation[1]?, r.ts.fuelPre[1]?)) =
        some (some (pvB.pv_cap * pvB.pv_hours *
            (let d := 1 - (((1 : ℕ) : ℚ) - 1) * pvB.pv_deg; if d < 0 then 0 else d)
          + pvB.ess_cap * pvB.ess_cycles * pvB.ess_eff), some 0) :=
  ⟨⟨by decide!, by decide!, by decide!⟩,
    C2_output_amended pvB 1 (by decide!) (by decide!) le_rfl (by decide!)⟩

/-- Counterexample to claim C3: at the defaults with `depr_years = 0` the
computation does not complete — `annual_depr = total_inv / depr_years`
raises `ZeroDivisionError` (modelled as `none`) instead of returning a
result with zero depreciation. -/
theorem C3_depreciation_counterexample :
    pvC.depr_years ≤ 0 ∧ (render_pv_ess_lcoe pvC).isNone = true :=
  ⟨by decide!, by decide!⟩

/-- Claim C3 amended: only for strictly negative `depr_years` does the
computation complete with depreciation 0 in every year (in all three
tracks); at `depr_years = 0` it raises a division fault. -/
theorem C3_depreciation_amended :
    (∀ p : PVParams, p.depr_years < 0 → p.wacc ≠ -1 →
      (render_pv_ess_lcoe p).map (fun r => r.ts.depreciation) =
        some (List.replicate (p.period + 1) 0))
    ∧ (∀ p : GasParams, p.depr_years < 0 → p.wacc ≠ -1 →
      (render_gas_lcoe p).map (fun r => r.ts.depreciation) =
        some (List.replicate (p.period + 1) 0))
    ∧ (∀ p : LCOSParams, p.depr_years < 0 → p.wacc ≠ -1 →
      (render_lcos p).map (fun r => r.ts.depreciation) =
        some (List.replicate (p.period + 1) 0)) := by
  have key : ∀ cfg : EngineCfg, cfg.depr_years < 0 → cfg.wacc ≠ -1 →
      (runEngine cfg).map (fun r => r.ts.depreciation) =
        some (List.replicate (cfg.period + 1) 0) := by
    intro cfg hneg hw
    have hd : cfg.depr_years ≠ 0 := by omega
    have hfg : ∀ y, 1 ≤ y → y ≤ cfg.period →
        deprY cfg (adOf cfg) y = (fun _ => (0 : ℚ)) y := by
      intro y h1 _
      have hy : (1 : ℤ) ≤ (y : ℤ) := by exact_mod_cast h1
      rw [deprY, if_neg (by omega)]
    rw [runEngine_eq _ hd hw, Option.map_some']
    simp only [runTotal, engineState]
    rw [listTo_congr cfg.period hfg, listTo_const, ← List.replicate_succ]
  exact ⟨fun p h1 h2 => key (pvCfg p) h1 h2, fun p h1 h2 => key (gasCfg p) h1 h2,
    fun p h1 h2 => key (lcosCfg p) h1 h2⟩

/-- Witness for C3: a negative depreciation horizon at the minimal input. -/
theorem C3_depreciation_witness :
    (pvG.depr_years < 0 ∧ pvG.wacc ≠ -1)
    ∧ (render_pv_ess_lcoe pvG).map (fun r => r.ts.depreciation) =
        some (List.replicate (pvG.period + 1) 0) :=
  ⟨⟨by decide!, by decide!⟩, C3_depreciation_amended.1 pvG (by decide!) (by decide!)⟩

/-- Counterexample to claim C5: with zero capacity and hours the discounted
output denominator is 0, yet with `depr_years = 0` as well the engine does
not report 0 results — it raises a division fault (`none`), so "never an
exception" fails. -/
theorem C5_zero_denominator_counterexample :
    discGenSum (pvCfg pvD) = 0 ∧ (render_pv_ess_lcoe pvD).isNone = true :=
  ⟨by decide!, by decide!⟩

/-- Claim C5 amended: provided the run does not hit a division fault
(`depr_years ≠ 0` and `wacc ≠ -1`), a nonpositive discounted-output
denominator makes both the technical LCOE and the breakeven price 0
(shown for the PV and LCOS tracks, which the claim cites). -/
theorem C5_zero_denominator_amended :
    (∀ p : PVParams, p.depr_years ≠ 0 → p.wacc ≠ -1 → discGenSum (pvCfg p) ≤ 0 →
      (render_pv_ess_lcoe p).map (fun r => (r.lcoe_pre, r.lcoe_ppa)) = some (0, 0))
    ∧ (∀ p : LCOSParams, p.depr_years ≠ 0 → p.wacc ≠ -1 → discGenSum (lcosCfg p) ≤ 0 →
      (render_lcos p).map (fun r => (r.lcoe_pre, r.lcoe_ppa)) = some (0, 0)) := by
  have key : ∀ cfg : EngineCfg, cfg.depr_years ≠ 0 → cfg.wacc ≠ -1 → discGenSum cfg ≤ 0 →
      (runEngine cfg).map (fun r => (r.lcoe_pre, r.lcoe_ppa)) = some (0, 0) := by
    intro cfg hd hw hden
    rw [runEngine_eq _ hd hw, Option.map_some']
    simp only [runTotal, engineState]
    rw [cumDenomF_eq, ← discGenSum, if_neg (not_lt.mpr hden), if_neg (not_lt.mpr hden),
      zero_div, ite_self]
  exact ⟨fun p h1 h2 h3 => key (pvCfg p) h1 h2 h3, fun p h1 h2 h3 => key (lcosCfg p) h1 h2 h3⟩

/-- Witness for C5: zero capacity and hours with a valid depreciation
horizon report `(0, 0)`. -/
theorem C5_zero_denominator_witness :
    (pvH.depr_years ≠ 0 ∧ pvH.wacc ≠ -1 ∧ discGenSum (pvCfg pvH) ≤ 0)
    ∧ (render_pv_ess_lcoe pvH).map (fun r => (r.lcoe_pre, r.lcoe_ppa)) = some (0, 0) :=
  ⟨⟨by decide!, by decide!, by decide!⟩,
    C5_zero_denominator_amended.1 pvH (by decide!) (by decide!) (by decide!)⟩

/-- Counterexample to claim C6: the LCOS track has no degradation floor.
With a 150 percent annual degradation rate — which the input boundary
accepts — year 2 records output `200*(1-1.5)^1*330*0.85 = -28050 < 0`. -/
theorem C6_output_floor_counterexample :
    (render_lcos lcosA).map (fun r => r.ts.generation[2]?) = some (some ((-28050 : ℚ)))
    ∧ ((-28050 : ℚ) < 0) :=
  ⟨by decide!, by decide!⟩

/-- Claim C6 amended: recorded output is nonnegative in the PV track for
any degradation rate provided the capacities, hours, cycles and efficiency
are nonnegative (the linear factor is clamped at 0), and in the LCOS track
only under the extra assumption `deg ≤ 1` — its exponential factor has no
clamp. -/
theorem C6_output_floor_amended :
    (∀ p : PVParams, p.depr_years ≠ 0 → p.wacc ≠ -1 →
      0 ≤ p.pv_cap → 0 ≤ p.pv_hours → 0 ≤ p.ess_cap → 0 ≤ p.ess_cycles → 0 ≤ p.ess_eff →
      (render_pv_ess_lcoe p).map (fun r => r.ts.generation.all qNonneg) = some true)
    ∧ (∀ p : LCOSParams, p.depr_years ≠ 0 → p.wacc ≠ -1 →
      0 ≤ p.ess_cap → 0 ≤ p.cycles → 0 ≤ p.rte → p.deg ≤ 1 →
      (render_lcos p).map (fun r => r.ts.generation.all qNonneg) = some true) := by
  constructor
  · intro p hd hw hc hh he1 he2 he3
    rw [render_pv_ess_lcoe, runEngine_eq _ hd hw, Option.map_some']
    simp only [runTotal, engineState]
    refine congrArg some ?_
    rw [List.all_eq_true]
    intro x hx
    rw [List.mem_cons] at hx
    rcases hx with rfl | hx
    · exact decide_eq_true le_rfl
    · obtain ⟨y, rfl⟩ := mem_listTo hx
      refine decide_eq_true ?_
      show (0 : ℚ) ≤ p.pv_cap * p.pv_hours *
          (let d := 1 - ((y : ℚ) - 1) * p.pv_deg; if d < 0 then 0 else d)
        + p.ess_cap * p.ess_cycles * p.ess_eff
      have h3 : (0 : ℚ) ≤ (let d := 1 - ((y : ℚ) - 1) * p.pv_deg; if d < 0 then 0 else d) := by
        dsimp only
        split_ifs with h
        · exact le_rfl
        · exact not_lt.mp h
      exact add_nonneg (mul_nonneg (mul_nonneg hc hh) h3) (mul_nonneg (mul_nonneg he1 he2) he3)
  · intro p hd hw hc hcy hr hdeg
    rw [render_lcos, runEngine_eq _ hd hw, Option.map_some']
    simp only [runTotal, engineState]
    refine congrArg some ?_
    rw [List.all_eq_true]
    intro x hx
    rw [List.mem_cons] at hx
    rcases hx with rfl | hx
    · exact decide_eq_true le_rfl
    · obtain ⟨y, rfl⟩ := mem_listTo hx
      refine decide_eq_true ?_
      show (0 : ℚ) ≤ p.ess_cap * (1 - p.deg) ^ (y - 1) * p.cycles * p.rte
      have hpow : (0 : ℚ) ≤ (1 - p.deg) ^ (y - 1) := pow_nonneg (by linarith) _
      exact mul_nonneg (mul_nonneg (mul_nonneg hc hpow) hcy) hr

/-- Witness for C6: the PV part at the minimal nonnegative input. -/
theorem C6_output_floor_witness :
    (pvA.depr_years ≠ 0 ∧ pvA.wacc ≠ -1 ∧ 0 ≤ pvA.pv_cap ∧ 0 ≤ pvA.pv_hours
      ∧ 0 ≤ pvA.ess_cap ∧ 0 ≤ pvA.ess_cycles ∧ 0 ≤ pvA.ess_eff)
    ∧ (render_pv_ess_lcoe pvA).map (fun r => r.ts.generation.all qNonneg) = some true :=
  ⟨⟨by decide!, by decide!, by decide!, by decide!, by decide!, by decide!, by decide!⟩,
    C6_output_floor_amended.1 pvA (by decide!) (by decide!) (by decide!) (by decide!)
      (by decide!) (by decide!) (by decide!)⟩

/-- Counterexample to claim C7: a negative PV capacity is neither clamped
to 0 nor rejected: the run completes and year 1 records the raw value
`-200*2200 + 102000 = -338000`, while the same input with the capacity
replaced by 0 records 102000. -/
theorem C7_boundary_counterexample :
    (render_pv_ess_lcoe pvE).map (fun r => r.ts.generation[1]?) = some (some ((-338000 : ℚ)))
    ∧ (render_pv_ess_lcoe pvF).map (fun r => r.ts.generation[1]?) = some (some 102000)
    ∧ ((-338000 : ℚ) ≠ 102000) ∧ ((-338000 : ℚ) < 0) :=
  ⟨by decide!, by decide!, by decide!, by decide!⟩

/-- Claim C7 amended: no clamping or rejection happens at the boundary;
invalid inputs (negative capacities or rates, horizon < 1 giving an empty
loop) flow into the engine unchanged, and the computation nevertheless
completes without a runtime fault whenever `depr_years ≠ 0` and
`wacc ≠ -1`, the only division-fault sites (PV and LCOS tracks, which the
claim cites). -/
theorem C7_boundary_amended :
    (∀ p : PVParams, p.depr_years ≠ 0 → p.wacc ≠ -1 →
      (render_pv_ess_lcoe p).isSome = true)
    ∧ (∀ p : LCOSParams, p.depr_years ≠ 0 → p.wacc ≠ -1 →
      (render_lcos p).isSome = true) := by
  constructor
  · intro p hd hw
    rw [render_pv_ess_lcoe, runEngine_eq _ hd hw]
    rfl
  · intro p hd hw
    rw [render_lcos, runEngine_eq _ hd hw]
    rfl

/-- Witness for C7: a negative capacity with horizon 0 still completes. -/
theorem C7_boundary_witness :
    (pvI.depr_years ≠ 0 ∧ pvI.wacc ≠ -1)
    ∧ (render_pv_ess_lcoe pvI).isSome = true :=
  ⟨⟨by decide!, by decide!⟩, C7_boundary_amended.1 pvI (by decide!) (by decide!)⟩
